import Mathlib

/-!
Verification of the landing-page generator repository.

The development shallowly embeds the pieces of the repository that the
claims are about:

* a JSON document type (`Json`) together with models of the JavaScript
  primitives the source uses on parsed JSON (`String(v)` coercion, property
  access, truthiness, `JSON.stringify`, `JSON.parse`);
* the preview content store (`src/lib/kv.ts`, second section:
  `createPageContent` / `getPageContent`);
* the dynamic content store of `src/lib/dynamicLandingStore.ts`
  (`validateContent` / `createDynamicLandingPage` / `getDynamicLandingPage`);
* the older dynamic store variant of `src/unnamed/part_003`
  (`createDynamicLandingPage` with the write-verification read-back, and
  its `getDynamicLandingPage`);
* the streaming client of `src/unnamed/part_002` (`streamChatCompletion`);
* the generation route `POST` handlers: the variant embedded in
  `src/lib/dynamicLandingStore.ts` (named here with suffix `A`) and the
  variant of `src/unnamed/part_004` (suffix `P4`).

Machine-level external primitives (the wire codec `JSON.stringify` /
`JSON.parse`, the Redis client) are modelled at the level of their
specification: the preview store keeps documents, so that the platform fact
"`JSON.parse` of `JSON.stringify` output returns an equal document" is the
identity, while stores whose claims are byte-oriented keep strings produced
by the executable `stringify` below.
-/

set_option maxRecDepth 4000

namespace LandingSpec

/-! ## JSON documents and JavaScript value primitives -/

/-- A JSON document, the result of `JSON.parse`.  JSON numbers are modelled
as integers; no claim exercises fractional numeric payloads. -/
inductive Json where
  | jnull
  | jbool (b : Bool)
  | jnum (n : Int)
  | jstr (s : String)
  | jarr (items : List Json)
  | jobj (fields : List (String × Json))
deriving Repr

/-- Structural equality test on documents (element-wise on arrays and
objects). -/
def Json.beq : Json → Json → Bool
  | .jnull, .jnull => true
  | .jbool a, .jbool b => a == b
  | .jnum a, .jnum b => a == b
  | .jstr a, .jstr b => a == b
  | .jarr as, .jarr bs => beqItems as bs
  | .jobj as, .jobj bs => beqFields as bs
  | _, _ => false
where
  beqItems : List Json → List Json → Bool
    | [], [] => true
    | a :: as, b :: bs => Json.beq a b && beqItems as bs
    | _, _ => false
  beqFields : List (String × Json) → List (String × Json) → Bool
    | [], [] => true
    | (k1, v1) :: as, (k2, v2) :: bs => k1 == k2 && Json.beq v1 v2 && beqFields as bs
    | _, _ => false

theorem Json.beqSound : ∀ n : Nat,
    (∀ a b : Json, sizeOf a ≤ n → (Json.beq a b = true ↔ a = b)) ∧
    (∀ as bs : List Json, sizeOf as ≤ n → (Json.beq.beqItems as bs = true ↔ as = bs)) ∧
    (∀ as bs : List (String × Json), sizeOf as ≤ n →
      (Json.beq.beqFields as bs = true ↔ as = bs)) := by
  intro n
  induction n using Nat.strong_induction_on with
  | _ n ih =>
    refine ⟨fun a b hs => ?_, fun as bs hs => ?_, fun as bs hs => ?_⟩
    · cases a <;> cases b <;>
        simp_all only [Json.beq, beq_iff_eq, Bool.and_eq_true,
          Json.jnull.sizeOf_spec, Json.jbool.sizeOf_spec, Json.jnum.sizeOf_spec,
          Json.jstr.sizeOf_spec, Json.jarr.sizeOf_spec, Json.jobj.sizeOf_spec,
          Json.jbool.injEq, Json.jnum.injEq, Json.jstr.injEq, Json.jarr.injEq,
          Json.jobj.injEq, reduceCtorEq, iff_true, iff_false]
      case jarr.jarr as bs =>
        cases n with
        | zero => omega
        | succ m => exact ((ih m (by omega)).2.1 as bs (by omega))
      case jobj.jobj as bs =>
        cases n with
        | zero => omega
        | succ m => exact ((ih m (by omega)).2.2 as bs (by omega))
    · cases as with
      | nil => cases bs <;> simp [Json.beq.beqItems]
      | cons a as =>
        cases bs with
        | nil => simp [Json.beq.beqItems]
        | cons b bs =>
          simp only [List.cons.sizeOf_spec] at hs
          cases n with
          | zero => omega
          | succ m =>
            have h1 := (ih m (by omega)).1 a b (by omega)
            have h2 := (ih m (by omega)).2.1 as bs (by omega)
            simp [Json.beq.beqItems, h1, h2]
    · cases as with
      | nil => cases bs <;> simp [Json.beq.beqFields]
      | cons a as =>
        cases bs with
        | nil => simp [Json.beq.beqFields]
        | cons b bs =>
          obtain ⟨k1, v1⟩ := a
          obtain ⟨k2, v2⟩ := b
          simp only [List.cons.sizeOf_spec, Prod.mk.sizeOf_spec] at hs
          cases n with
          | zero => omega
          | succ m =>
            have h1 := (ih m (by omega)).1 v1 v2 (by omega)
            have h2 := (ih m (by omega)).2.2 as bs (by omega)
            simp [Json.beq.beqFields, h1, h2, and_assoc]

instance : DecidableEq Json := fun a b =>
  decidable_of_iff _ ((Json.beqSound (sizeOf a)).1 a b le_rfl)

namespace Json

/-- JavaScript truthiness of a JSON value: `null`, `false`, `0` and `""`
are falsy, everything else (including `[]` and `\x7b\x7d`) is truthy. -/
def truthy : Json → Bool
  | jnull => false
  | jbool b => b
  | jnum n => n != 0
  | jstr s => s ≠ ""
  | jarr _ => true
  | jobj _ => true

/-- Property access `v.k` in the source, used only under optional chaining
or on values known not to be `null`: objects look the key up (absent keys
give `undefined`, modelled as `none`), primitives and arrays have none of
the accessed keys, and access on `null` is modelled by the caller. -/
def get : Json → String → Option Json
  | jobj fields, k => fields.lookup k
  | _, _ => none

/-- `Array.isArray`. -/
def isArr : Json → Bool
  | jarr _ => true
  | _ => false

/-- The element list of an array value. -/
def asArr : Json → List Json
  | jarr items => items
  | _ => []

end Json

open Json

/-- `a || b` on JavaScript values where `a` may be `undefined` (`none`):
returns `a` when it is present and truthy, otherwise `b`. -/
def jsOr (a : Option Json) (b : Json) : Json :=
  match a with
  | some v => if v.truthy then v else b
  | none => b

/-- First present-and-truthy value of a candidate chain
`a1 || a2 || ... || default`. -/
def jsOrChain (cands : List (Option Json)) (dflt : Json) : Json :=
  match cands with
  | [] => dflt
  | c :: rest => match c with
    | some v => if v.truthy then v else jsOrChain rest dflt
    | none => jsOrChain rest dflt

/-- Optional chaining `v?.k` where `v` may be absent: `null` and
`undefined` short-circuit to `undefined`. -/
def optGet (v : Option Json) (k : String) : Option Json :=
  match v with
  | none => none
  | some Json.jnull => none
  | some w => w.get k

/-- Two-step probe `content.sect?.field` used by the normalizers. -/
def probe2 (content : Json) (sect field : String) : Option Json :=
  optGet (content.get sect) field

mutual

/-- The string JavaScript's `String(v)` produces: strings unchanged,
arrays joined by commas (with `null` elements printing as the empty
string), objects printing as `[object Object]`. -/
def jsToString : Json → String
  | Json.jnull => "null"
  | Json.jbool b => if b then "true" else "false"
  | Json.jnum n => toString n
  | Json.jstr s => s
  | Json.jarr items => jsToStringItems items
  | Json.jobj _ => "[object Object]"

/-- Comma join of array elements for `String(v)`. -/
def jsToStringItems : List Json → String
  | [] => ""
  | [x] =>
    match x with
    | Json.jnull => ""
    | v => jsToString v
  | x :: xs =>
    (match x with
     | Json.jnull => ""
     | v => jsToString v) ++ "," ++ jsToStringItems xs

end

/-! ### `JSON.stringify` -/

/-- Hex digit for string escapes. -/
def hexDigit (n : Nat) : Char :=
  if n < 10 then Char.ofNat (48 + n) else Char.ofNat (87 + (n - 10))

/-- JSON escape of one character, as produced by `JSON.stringify`. -/
def escapeChar (c : Char) : List Char :=
  if c = '"' then ['\\', '"']
  else if c = '\\' then ['\\', '\\']
  else if c = '\n' then ['\\', 'n']
  else if c = '\t' then ['\\', 't']
  else if c = '\r' then ['\\', 'r']
  else if c.toNat < 32 then
    ['\\', 'u', '0', '0', hexDigit (c.toNat / 16), hexDigit (c.toNat % 16)]
  else [c]

/-- Serialized form of a JSON string literal. -/
def encStr (s : String) : String :=
  ⟨'"' :: (s.data.flatMap escapeChar) ++ ['"']⟩

mutual

/-- `JSON.stringify` on documents. -/
def stringify : Json → String
  | Json.jnull => "null"
  | Json.jbool b => if b then "true" else "false"
  | Json.jnum n => toString n
  | Json.jstr s => encStr s
  | Json.jarr items => "[" ++ stringifyItems items ++ "]"
  | Json.jobj fields => "\x7b" ++ stringifyFields fields ++ "\x7d"

/-- Comma-separated serialized array elements. -/
def stringifyItems : List Json → String
  | [] => ""
  | [x] => stringify x
  | x :: xs => stringify x ++ "," ++ stringifyItems xs

/-- Comma-separated serialized object members. -/
def stringifyFields : List (String × Json) → String
  | [] => ""
  | [(k, v)] => encStr k ++ ":" ++ stringify v
  | (k, v) :: xs => encStr k ++ ":" ++ stringify v ++ "," ++ stringifyFields xs

end

/-! ### `JSON.parse`

A recursive-descent parser over the character list, used wherever the
source calls `JSON.parse` on text whose shape is not known (stream
accumulation, store reads).  Numbers are restricted to integers, matching
the `Json` type. -/

/-- JSON whitespace. -/
def isWs (c : Char) : Bool := c = ' ' || c = '\n' || c = '\t' || c = '\r'

/-- Drop leading whitespace. -/
def skipWs : List Char → List Char
  | [] => []
  | c :: cs => if isWs c then skipWs cs else c :: cs

/-- JavaScript `String.prototype.trim` (whitespace stripped from both
ends), computed over the character list so that the kernel can evaluate
it on literals. -/
def jsTrim (s : String) : String :=
  ⟨((s.data.dropWhile isWs).reverse.dropWhile isWs).reverse⟩

/-- `s.includes(c)` for a single-character needle. -/
def strContains (s : String) (c : Char) : Bool := s.data.contains c

/-- `s.startsWith(p)`. -/
def strStarts (s p : String) : Bool := p.data.isPrefixOf s.data

/-- JavaScript `s.split(c)` for a single-character separator. -/
def splitChar (c : Char) : List Char → List (List Char)
  | [] => [[]]
  | x :: xs =>
    let r := splitChar c xs
    if x = c then [] :: r
    else
      match r with
      | h :: t => (x :: h) :: t
      | [] => [[x]]

/-- `s.split(c)` packaged on strings. -/
def splitOnChar (c : Char) (s : String) : List String :=
  (splitChar c s.data).map fun l => ⟨l⟩

/-- Value of a hexadecimal digit. -/
def hexVal (c : Char) : Option Nat :=
  if '0' ≤ c ∧ c ≤ '9' then some (c.toNat - 48)
  else if 'a' ≤ c ∧ c ≤ 'f' then some (c.toNat - 87)
  else if 'A' ≤ c ∧ c ≤ 'F' then some (c.toNat - 55)
  else none

/-- Unescape of a single-character escape sequence. -/
def unescape (e : Char) : Option Char :=
  if e = '"' then some '"'
  else if e = '\\' then some '\\'
  else if e = '/' then some '/'
  else if e = 'n' then some '\n'
  else if e = 't' then some '\t'
  else if e = 'r' then some '\r'
  else if e = 'b' then some (Char.ofNat 8)
  else if e = 'f' then some (Char.ofNat 12)
  else none

/-- Body of a JSON string literal, after the opening quote; returns the
decoded characters and the input after the closing quote. -/
def parseStrBody : List Char → Option (List Char × List Char)
  | [] => none
  | '"' :: rest => some ([], rest)
  | '\\' :: 'u' :: a :: b :: c :: d :: r2 => do
      let ha ← hexVal a
      let hb ← hexVal b
      let hc ← hexVal c
      let hd ← hexVal d
      let (s, r3) ← parseStrBody r2
      pure (Char.ofNat (((ha * 16 + hb) * 16 + hc) * 16 + hd) :: s, r3)
  | '\\' :: e :: r2 => do
      let c ← unescape e
      let (s, r3) ← parseStrBody r2
      pure (c :: s, r3)
  | c :: rest => do
      let (s, r2) ← parseStrBody rest
      pure (c :: s, r2)

/-- Digit run of a number literal, accumulating its value. -/
def parseDigits : List Char → Nat → Nat × List Char
  | c :: cs, acc => if c.isDigit then parseDigits cs (acc * 10 + (c.toNat - 48)) else (acc, c :: cs)
  | [], acc => (acc, [])

/-- A natural-number literal (at least one digit). -/
def parseNatNum : List Char → Option (Nat × List Char)
  | c :: cs => if c.isDigit then some (parseDigits cs (c.toNat - 48)) else none
  | [] => none

/-- An integer literal with optional sign. -/
def parseNum : List Char → Option (Int × List Char)
  | '-' :: rest => (parseNatNum rest).map fun x => (-(x.1 : Int), x.2)
  | cs => (parseNatNum cs).map fun x => ((x.1 : Int), x.2)

mutual

/-- One JSON value; `fuel` bounds the total number of nested values. -/
def parseVal : Nat → List Char → Option (Json × List Char)
  | 0, _ => none
  | fuel + 1, cs =>
    match skipWs cs with
    | 'n' :: 'u' :: 'l' :: 'l' :: rest => some (.jnull, rest)
    | 't' :: 'r' :: 'u' :: 'e' :: rest => some (.jbool true, rest)
    | 'f' :: 'a' :: 'l' :: 's' :: 'e' :: rest => some (.jbool false, rest)
    | '"' :: rest => (parseStrBody rest).map fun x => (.jstr ⟨x.1⟩, x.2)
    | '[' :: rest =>
      (match skipWs rest with
       | ']' :: r2 => some (.jarr [], r2)
       | r2 => (parseItems fuel r2).map fun x => (.jarr x.1, x.2))
    | '\x7b' :: rest =>
      (match skipWs rest with
       | '\x7d' :: r2 => some (.jobj [], r2)
       | r2 => (parseMembers fuel r2).map fun x => (.jobj x.1, x.2))
    | cs2 => (parseNum cs2).map fun x => (.jnum x.1, x.2)

/-- Comma-separated array elements up to the closing bracket. -/
def parseItems : Nat → List Char → Option (List Json × List Char)
  | 0, _ => none
  | fuel + 1, cs => do
    let (v, r) ← parseVal fuel cs
    match skipWs r with
    | ',' :: r2 => do
        let (xs, r3) ← parseItems fuel r2
        pure (v :: xs, r3)
    | ']' :: r2 => pure ([v], r2)
    | _ => none

/-- Comma-separated `"key": value` members up to the closing brace. -/
def parseMembers : Nat → List Char → Option (List (String × Json) × List Char)
  | 0, _ => none
  | fuel + 1, cs =>
    match skipWs cs with
    | '"' :: rest => do
      let (k, r) ← parseStrBody rest
      match skipWs r with
      | ':' :: r2 => do
        let (v, r3) ← parseVal fuel r2
        match skipWs r3 with
        | ',' :: r4 => do
            let (fs, r5) ← parseMembers fuel r4
            pure ((⟨k⟩, v) :: fs, r5)
        | '\x7d' :: r4 => pure ([(⟨k⟩, v)], r4)
        | _ => none
      | _ => none
    | _ => none

end

/-- `JSON.parse`: `none` models a thrown `SyntaxError`. -/
def parseJson (s : String) : Option Json :=
  match parseVal (s.length + 1) s.data with
  | some (v, rest) => if skipWs rest = [] then some v else none
  | none => none

/-! ## Content records

Typed shapes of `GeneratedPageContent` (`src/lib/kv.ts`) and
`DynamicLandingPageContent` (`src/lib/dynamicLandingStore.ts`,
`src/unnamed/part_003` first section).  `heroTitle` entries are kept as raw
documents because the normalizers pass discovered hero entries through
without coercion. -/

structure FeatureR where
  title : String
  content : String
  icon : String
deriving DecidableEq, Repr

structure TierR where
  name : String
  price : String
  description : String
  features : List String
deriving DecidableEq, Repr

structure TestimonialR where
  name : String
  role : String
  content : String
  avatar : Option String
deriving DecidableEq, Repr

structure FaqR where
  question : String
  answer : String
deriving DecidableEq, Repr

/-- `Omit<GeneratedPageContent, "id">`: the payload given to
`createPageContent`. -/
structure PagePayload where
  idea : String
  heroTitle : List Json
  heroDescription : String
  featuresTitle : String
  features : List FeatureR
  pricingTitle : String
  pricingDescription : String
  pricingTiers : List TierR
  testimonialsTitle : String
  testimonials : List TestimonialR
  faqTitle : String
  faqs : List FaqR
  ctaTitle : String
  ctaDescription : String
deriving DecidableEq, Repr

/-- A stored preview record `\x7b id, ...payload \x7d`. -/
structure GeneratedPageContent where
  id : String
  body : PagePayload
deriving DecidableEq, Repr

/-- `Omit<DynamicLandingPageContent, "id">`. -/
structure DynPayload where
  logoUrl : Option String
  heroTitle : List Json
  heroDescription : String
  featuresTitle : String
  features : List FeatureR
  pricingTitle : String
  pricingDescription : String
  pricingTiers : List TierR
  testimonialsTitle : String
  testimonials : List TestimonialR
  faqTitle : String
  faqs : List FaqR
  ctaTitle : String
  ctaDescription : String
deriving DecidableEq, Repr

/-- A dynamic-store record `\x7b id, ...payload \x7d`. -/
structure DynContent where
  id : String
  body : DynPayload
deriving DecidableEq, Repr

/-! ### JSON encodings of the records (the shape `JSON.stringify` walks) -/

def encFeature (f : FeatureR) : Json :=
  .jobj [("title", .jstr f.title), ("content", .jstr f.content), ("icon", .jstr f.icon)]

def encTier (t : TierR) : Json :=
  .jobj [("name", .jstr t.name), ("price", .jstr t.price),
    ("description", .jstr t.description),
    ("features", .jarr (t.features.map .jstr))]

def encTestimonial (t : TestimonialR) : Json :=
  .jobj [("name", .jstr t.name), ("role", .jstr t.role), ("content", .jstr t.content),
    ("avatar", match t.avatar with | none => .jnull | some s => .jstr s)]

def encFaq (f : FaqR) : Json :=
  .jobj [("question", .jstr f.question), ("answer", .jstr f.answer)]

def encPageRecord (r : GeneratedPageContent) : Json :=
  .jobj [("id", .jstr r.id), ("idea", .jstr r.body.idea),
    ("heroTitle", .jarr r.body.heroTitle),
    ("heroDescription", .jstr r.body.heroDescription),
    ("featuresTitle", .jstr r.body.featuresTitle),
    ("features", .jarr (r.body.features.map encFeature)),
    ("pricingTitle", .jstr r.body.pricingTitle),
    ("pricingDescription", .jstr r.body.pricingDescription),
    ("pricingTiers", .jarr (r.body.pricingTiers.map encTier)),
    ("testimonialsTitle", .jstr r.body.testimonialsTitle),
    ("testimonials", .jarr (r.body.testimonials.map encTestimonial)),
    ("faqTitle", .jstr r.body.faqTitle),
    ("faqs", .jarr (r.body.faqs.map encFaq)),
    ("ctaTitle", .jstr r.body.ctaTitle),
    ("ctaDescription", .jstr r.body.ctaDescription)]

def encDynContent (r : DynContent) : Json :=
  .jobj [("id", .jstr r.id),
    ("logoUrl", match r.body.logoUrl with | none => .jnull | some s => .jstr s),
    ("heroTitle", .jarr r.body.heroTitle),
    ("heroDescription", .jstr r.body.heroDescription),
    ("featuresTitle", .jstr r.body.featuresTitle),
    ("features", .jarr (r.body.features.map encFeature)),
    ("pricingTitle", .jstr r.body.pricingTitle),
    ("pricingDescription", .jstr r.body.pricingDescription),
    ("pricingTiers", .jarr (r.body.pricingTiers.map encTier)),
    ("testimonialsTitle", .jstr r.body.testimonialsTitle),
    ("testimonials", .jarr (r.body.testimonials.map encTestimonial)),
    ("faqTitle", .jstr r.body.faqTitle),
    ("faqs", .jarr (r.body.faqs.map encFaq)),
    ("ctaTitle", .jstr r.body.ctaTitle),
    ("ctaDescription", .jstr r.body.ctaDescription)]

/-! ## Store layer

`redis.set(key, value, options?)` calls are recorded as `SetCall` values;
`ex` is the expiry option in seconds (absent when the source passes no
options). -/

structure SetCall where
  key : String
  value : String
  ex : Option Nat
deriving DecidableEq, Repr

/-- Namespaced key of the preview store (`src/lib/kv.ts`). -/
def previewKeyOf (id : String) : String := "preview_landing_page:" ++ id

/-- Namespaced key of the dynamic store. -/
def dynKeyOf (id : String) : String := "dynamic_landing_page:" ++ id

/-! ### Preview store (`src/lib/kv.ts`, `createPageContent` / `getPageContent`)

The preview store state maps keys to stored documents; `JSON.parse` of the
`JSON.stringify` output written by `create` is, by the codec's
specification, the written document itself, so `get` recovers the stored
document.  The byte-level image of each write is still recorded in the
returned `SetCall`. -/

/-- `createPageContent` (kv.ts lines 160-191): fresh id (passed in for the
`uuidv4()` call), record `\x7b id, ...payload \x7d`, one `set` under the
namespaced key with a 30-day expiry. -/
def createPageContent (genId : String) (p : PagePayload) (σ : List (String × Json)) :
    GeneratedPageContent × List (String × Json) × SetCall :=
  let r : GeneratedPageContent := ⟨genId, p⟩
  (r, (previewKeyOf genId, encPageRecord r) :: σ,
    ⟨previewKeyOf genId, stringify (encPageRecord r), some (60 * 60 * 24 * 30)⟩)

/-- `getPageContent` (kv.ts lines 196-225): read the namespaced key;
absent data is an explicit `undefined` result; any thrown error is caught
and also yields `undefined`.  In this model the parsed record is the
stored document. -/
def getPageContent (id : String) (σ : List (String × Json)) : Option Json :=
  match σ.lookup (previewKeyOf id) with
  | none => none
  | some doc => some doc

/-! ### Dynamic store of `src/lib/dynamicLandingStore.ts` -/

/-- `Partial<DynamicLandingPageContent>`: the argument of the lib-variant
`createDynamicLandingPage`. -/
structure DynPartial where
  id : Option String := none
  logoUrl : Option String := none
  heroTitle : Option (List Json) := none
  heroDescription : Option String := none
  featuresTitle : Option String := none
  features : Option (List FeatureR) := none
  pricingTitle : Option String := none
  pricingDescription : Option String := none
  pricingTiers : Option (List TierR) := none
  testimonialsTitle : Option String := none
  testimonials : Option (List TestimonialR) := none
  faqTitle : Option String := none
  faqs : Option (List FaqR) := none
  ctaTitle : Option String := none
  ctaDescription : Option String := none
deriving DecidableEq, Repr

/-- `x || dflt` for an optional string field (the empty string is falsy). -/
def strOrD (x : Option String) (dflt : String) : String :=
  match x with
  | some s => if s = "" then dflt else s
  | none => dflt

/-- `data.logoUrl || null`. -/
def strOrNull (x : Option String) : Option String :=
  match x with
  | some s => if s = "" then none else some s
  | none => none

/-- The content object built by the lib-variant `createDynamicLandingPage`
(dynamicLandingStore.ts lines 161-180): every missing field defaulted
(`|| []`, `|| ''`, `id: data.id || uuidv4()`). -/
def buildDynBody (d : DynPartial) : DynPayload :=
  { logoUrl := strOrNull d.logoUrl
    heroTitle := d.heroTitle.getD []
    heroDescription := d.heroDescription.getD ""
    featuresTitle := d.featuresTitle.getD ""
    features := d.features.getD []
    pricingTitle := d.pricingTitle.getD ""
    pricingDescription := d.pricingDescription.getD ""
    pricingTiers := d.pricingTiers.getD []
    testimonialsTitle := d.testimonialsTitle.getD ""
    testimonials := d.testimonials.getD []
    faqTitle := d.faqTitle.getD ""
    faqs := d.faqs.getD []
    ctaTitle := d.ctaTitle.getD ""
    ctaDescription := d.ctaDescription.getD "" }

/-- The full content object of the lib-variant create, with
`id: data.id || uuidv4()`. -/
def buildDynContent (genId : String) (d : DynPartial) : DynContent :=
  { id := strOrD d.id genId, body := buildDynBody d }

/-- Per-tier checks of `validateContent` (lines 116-129). -/
def checkTiers : Nat → List TierR → Except String Unit
  | _, [] => .ok ()
  | i, t :: ts =>
    if jsTrim t.name = "" then .error ("Pricing tier " ++ toString i ++ " must have a name")
    else if jsTrim t.price = "" then .error ("Pricing tier " ++ toString i ++ " must have a price")
    else if jsTrim t.description = "" then
      .error ("Pricing tier " ++ toString i ++ " must have a description")
    else if t.features.length = 0 then
      .error ("Pricing tier " ++ toString i ++ " must have at least one feature")
    else checkTiers (i + 1) ts

/-- Per-testimonial checks of `validateContent` (lines 132-142). -/
def checkTestimonials : Nat → List TestimonialR → Except String Unit
  | _, [] => .ok ()
  | i, t :: ts =>
    if jsTrim t.name = "" then .error ("Testimonial " ++ toString i ++ " must have a name")
    else if jsTrim t.role = "" then .error ("Testimonial " ++ toString i ++ " must have a role")
    else if jsTrim t.content = "" then .error ("Testimonial " ++ toString i ++ " must have content")
    else checkTestimonials (i + 1) ts

/-- Per-FAQ checks of `validateContent` (lines 145-152). -/
def checkFaqs : Nat → List FaqR → Except String Unit
  | _, [] => .ok ()
  | i, f :: fs =>
    if jsTrim f.question = "" then .error ("FAQ " ++ toString i ++ " must have a question")
    else if jsTrim f.answer = "" then .error ("FAQ " ++ toString i ++ " must have an answer")
    else checkFaqs (i + 1) fs

/-- `validateContent` (dynamicLandingStore.ts lines 75-155): minimum array
lengths, non-blank required strings, per-item structure checks, in source
order.  The function never reads the `id` field, so it is modelled over
the id-free body; the `Array.isArray` guards always pass on the typed
record, and the source's `return content` is unused by its only caller. -/
def validateContent (b : DynPayload) : Except String Unit :=
  if b.heroTitle.length < 3 then
    .error ("heroTitle must have at least 3 items, but has " ++ toString b.heroTitle.length)
  else if b.features.length < 4 then
    .error ("features must have at least 4 items, but has " ++ toString b.features.length)
  else if b.pricingTiers.length < 2 then
    .error ("pricingTiers must have at least 2 items, but has " ++
      toString b.pricingTiers.length)
  else if b.testimonials.length < 3 then
    .error ("testimonials must have at least 3 items, but has " ++
      toString b.testimonials.length)
  else if b.faqs.length < 4 then
    .error ("faqs must have at least 4 items, but has " ++ toString b.faqs.length)
  else if jsTrim b.heroDescription = "" then .error "heroDescription cannot be empty"
  else if jsTrim b.featuresTitle = "" then .error "featuresTitle cannot be empty"
  else if jsTrim b.pricingTitle = "" then .error "pricingTitle cannot be empty"
  else if jsTrim b.pricingDescription = "" then .error "pricingDescription cannot be empty"
  else if jsTrim b.testimonialsTitle = "" then .error "testimonialsTitle cannot be empty"
  else if jsTrim b.faqTitle = "" then .error "faqTitle cannot be empty"
  else if jsTrim b.ctaTitle = "" then .error "ctaTitle cannot be empty"
  else if jsTrim b.ctaDescription = "" then .error "ctaDescription cannot be empty"
  else
    match checkTiers 0 b.pricingTiers with
    | .error e => .error e
    | .ok _ =>
      match checkTestimonials 0 b.testimonials with
      | .error e => .error e
      | .ok _ =>
        match checkFaqs 0 b.faqs with
        | .error e => .error e
        | .ok _ => .ok ()

/-- The lib-variant `createDynamicLandingPage` (dynamicLandingStore.ts
lines 160-189): build the content with defaults, validate, then a single
`redis.set` with **no** options argument (no expiry).  On a validation
error the store state is returned untouched. -/
def createDynamicLandingPageLib (genId : String) (data : DynPartial)
    (σ : List (String × String)) :
    Except String DynContent × List (String × String) × List SetCall :=
  let c := buildDynContent genId data
  match validateContent c.body with
  | .error e => (.error e, σ, [])
  | .ok _ =>
    let w : SetCall := ⟨dynKeyOf c.id, stringify (encDynContent c), none⟩
    (.ok c, (w.key, w.value) :: σ, [w])

/-! ### Dynamic store of `src/unnamed/part_003` (first section) -/

/-- Outcome of the part_003 `createDynamicLandingPage`: the record, the
write, and the *logged* verification comparison (`matches` /
`matchReason` from the `createDynamicLandingPage:verify` log call,
part_003 lines 214-236). -/
structure P3Result where
  record : DynContent
  writes : List SetCall
  matchesLog : Bool
  matchReason : String
deriving DecidableEq, Repr

/-- part_003 `createDynamicLandingPage` (lines 75-253): validates
`heroTitle` (exactly 3 items) and a non-blank `heroDescription`, writes
the serialized record with a 30-day expiry, then reads the key back
(`verRead` injects what the store returns) and **logs** the comparison
against the serialized record; the record is returned regardless of the
comparison outcome. -/
def createDynP3 (genId : String) (p : DynPayload) (verRead : Option String) :
    Except String P3Result :=
  if p.heroTitle.length ≠ 3 then .error "heroTitle must have exactly 3 items"
  else if jsTrim p.heroDescription = "" then .error "heroDescription is required"
  else
    let record : DynContent := ⟨genId, p⟩
    let serializedRecord := stringify (encDynContent record)
    let w : SetCall := ⟨dynKeyOf genId, serializedRecord, some (60 * 60 * 24 * 30)⟩
    let matched := verRead == some serializedRecord
    let reason :=
      if matched then "exact"
      else match verRead with
        | none => "no_data"
        | some _ => "content_mismatch"
    .ok ⟨record, [w], matched, reason⟩

/-- part_003 `getDynamicLandingPage` (lines 258-419): read the namespaced
key (store values are serialized strings), return `undefined` when absent;
parse errors are thrown and converted to `undefined` by the outer catch;
a parsed record lacking the required hero fields also yields `undefined`. -/
def getDynP3 (id : String) (σ : List (String × String)) : Option Json :=
  match σ.lookup (dynKeyOf id) with
  | none => none
  | some raw =>
    match parseJson raw with
    | none => none
    | some record =>
      let okFields :=
        (match record.get "heroTitle" with
         | some ht => ht.truthy && ht.isArr && ht.asArr.length == 3
         | none => false)
        && (match record.get "heroDescription" with
            | some hd => hd.truthy
            | none => false)
      if okFields then some record else none

/-! ## Response accumulator / normalizer, variant A

The `POST` handler embedded in `src/lib/dynamicLandingStore.ts`
(lines 336-803 of the concatenated file), which both probes several
nestings for each field and repairs cardinalities. -/

/-- Element-wise `Array.prototype.map` of a function whose body can
throw, in the `Except` error monad. -/
def mapExcept (f : α → Except ε β) : List α → Except ε (List β)
  | [] => .ok []
  | a :: l => do
    let b ← f a
    let bs ← mapExcept f l
    pure (b :: bs)

/-- First candidate that is an array (`Array.isArray(x) ? x : ...` chain),
else the default. -/
def firstArr (cands : List (Option Json)) (dflt : List Json) : List Json :=
  match cands with
  | [] => dflt
  | c :: rest =>
    match c with
    | some (Json.jarr xs) => xs
    | _ => firstArr rest dflt

/-- The default hero triple. -/
def heroDefault : List Json := [.jstr "Build", .jstr "Launch", .jstr "Scale"]

/-- Hero-title probe (lines 538-542): direct key, `hero`, `Hero`,
`heroSection`, else the default triple. -/
def heroDiscoveredA (content : Json) : List Json :=
  firstArr [content.get "heroTitle", probe2 content "hero" "heroTitle",
    probe2 content "Hero" "heroTitle", probe2 content "heroSection" "heroTitle"]
    heroDefault

/-- Dot-splitting repair (lines 545-547): a single entry containing a
period is split on periods, trimmed, with empty parts dropped.
`heroTitle[0].includes(".")` throws on entries that are neither strings
nor arrays, and `heroTitle[0].split` throws on an array that contains the
string `"."`. -/
def heroSplitStep (l : List Json) : Except String (List Json) :=
  match l with
  | [x] =>
    match x with
    | .jstr s =>
      if strContains s '.' then
        .ok ((((splitOnChar '.' s).map jsTrim).filter (· ≠ "")).map .jstr)
      else .ok l
    | .jarr xs =>
      if xs.contains (.jstr ".") then .error "TypeError: split is not a function"
      else .ok l
    | _ => .error "TypeError: includes is not a function"
  | _ => .ok l

/-- Pad from the default triple when short, then truncate to 3
(lines 550-553). -/
def heroPad (l : List Json) : List Json :=
  let padded := if l.length < 3 then l ++ heroDefault.drop l.length else l
  padded.take 3

/-- The full hero-title normalization of variant A. -/
def normHeroTitleA (content : Json) : Except String (List Json) := do
  let l ← heroSplitStep (heroDiscoveredA content)
  pure (heroPad l)

/-- `FEATURE_ICONS` (line 304). -/
def FEATURE_ICONS : List String := ["⚡️", "🛠️", "🔒", "📱", "🌐", "✨"]

/-- `FEATURE_ICONS[i % FEATURE_ICONS.length]`. -/
def iconAt (i : Nat) : String := FEATURE_ICONS.getD (i % 6) ""

/-- Features probe (lines 555-559). -/
def featuresDiscoveredA (content : Json) : List Json :=
  firstArr [content.get "features", probe2 content "features" "features",
    probe2 content "Features" "features", probe2 content "featuresSection" "features"]
    []

/-- Default features substituted when the discovered list is empty
(lines 602-606). -/
def defaultFeaturesA : List Json :=
  (List.range 6).map fun i => Json.jobj
    [("title", .jstr ("Feature " ++ toString (i + 1))),
     ("content", .jstr "This feature helps you achieve your goals more efficiently."),
     ("icon", .jstr (iconAt i))]

/-- A synthesized padding feature (lines 609-613): `n` is the length of
the list being padded, `i` the padding position. -/
def padFeatureA (n i : Nat) : Json := Json.jobj
  [("title", .jstr ("Additional Feature " ++ toString (i + 1))),
   ("content", .jstr "This feature enhances your experience and productivity."),
   ("icon", .jstr (iconAt (n + i)))]

/-- `normalizedFeatures` (lines 602-615): default set when empty, padded
with synthesized entries up to 6. -/
def normalizedFeaturesA (features : List Json) : List Json :=
  let base := if features.length > 0 then features else defaultFeaturesA
  if base.length < 6 then
    base ++ (List.range (6 - base.length)).map (padFeatureA base.length)
  else base

/-- Promotion of one feature entry (lines 648-655): `String(f.title || f)`,
`String(f.content || f.description || template)`,
`String(f.icon || FEATURE_ICONS[normalizedFeatures.indexOf(f) % 6])`.
Property access on a `null` entry throws. -/
def promoteFeatureA (nf : List Json) (f : Json) : Except String FeatureR :=
  if f = Json.jnull then .error "TypeError: cannot read properties of null"
  else
    let title := jsToString (jsOr (f.get "title") f)
    let fContent := jsToString (jsOrChain [f.get "content", f.get "description"]
      (.jstr ("Leverage the power of " ++ title ++ " to transform your business.")))
    let icon := jsToString (jsOr (f.get "icon") (.jstr (iconAt (nf.indexOf f))))
    .ok ⟨title, fContent, icon⟩

/-- `normalizedFeatures.slice(0, 6).map(...)` (line 648). -/
def promoteFeaturesA (nf : List Json) : Except String (List FeatureR) :=
  mapExcept (promoteFeatureA nf) (nf.take 6)

/-- Default pricing tiers (lines 566-577). -/
def defaultTiersA : List Json :=
  [Json.jobj [("name", .jstr "Basic"), ("price", .jstr "$29/month"),
     ("description", .jstr "Perfect for getting started"),
     ("features", .jarr [.jstr "Core features", .jstr "Basic support",
       .jstr "Up to 1000 users", .jstr "1 project"])],
   Json.jobj [("name", .jstr "Pro"), ("price", .jstr "$99/month"),
     ("description", .jstr "For growing businesses"),
     ("features", .jarr [.jstr "All Basic features", .jstr "Priority support",
       .jstr "Unlimited users", .jstr "Unlimited projects"])]]

/-- Pricing-tiers probe (lines 561-577). -/
def tiersDiscoveredA (content : Json) : List Json :=
  firstArr [content.get "pricingTiers", probe2 content "pricing" "pricingTiers",
    probe2 content "Pricing" "pricingTiers", probe2 content "pricingSection" "pricingTiers"]
    defaultTiersA

/-- Tier normalization (lines 671-676). -/
def normTierA (t : Json) : Except String TierR :=
  if t = Json.jnull then .error "TypeError: cannot read properties of null"
  else .ok
    { name := jsToString (jsOrChain [t.get "name", t.get "title"] (.jstr "Basic"))
      price := jsToString (jsOr (t.get "price") (.jstr "$0"))
      description := jsToString (jsOr (t.get "description")
        (.jstr "Get started with our basic plan"))
      features :=
        match t.get "features" with
        | some (Json.jarr fs) => fs.map jsToString
        | _ => [] }

/-- Default testimonials (lines 584-589). -/
def defaultTestimonialsA : List Json :=
  (List.range 8).map fun i => Json.jobj
    [("name", .jstr ("Customer " ++ toString (i + 1))),
     ("role", .jstr "Satisfied User"),
     ("content", .jstr "This product has transformed how we work. The implementation was smooth, and the results were immediate. Highly recommended for any business looking to improve their operations."),
     ("avatar", Json.jnull)]

/-- Testimonials probe (lines 579-589). -/
def testimonialsDiscoveredA (content : Json) : List Json :=
  firstArr [content.get "testimonials", probe2 content "testimonials" "testimonials",
    probe2 content "Testimonials" "testimonials",
    probe2 content "testimonialsSection" "testimonials"]
    defaultTestimonialsA

/-- Testimonial normalization (lines 684-689); `avatar` is forced to
`null`. -/
def normTestimonialA (t : Json) : Except String TestimonialR :=
  if t = Json.jnull then .error "TypeError: cannot read properties of null"
  else .ok
    { name := jsToString (jsOr (t.get "name") (.jstr "Happy Customer"))
      role := jsToString (jsOrChain [t.get "role", t.get "position"] (.jstr "Satisfied User"))
      content := jsTrim (jsToString (jsOrChain [t.get "content", t.get "testimonial"]
        (.jstr "This product has transformed our business.")))
      avatar := none }

/-- Default FAQs (lines 596-599). -/
def defaultFaqsA : List Json :=
  (List.range 6).map fun i => Json.jobj
    [("question", .jstr ("Common Question " ++ toString (i + 1) ++ "?")),
     ("answer", .jstr "We understand this is an important consideration. Our solution is designed to address this exact need, providing you with the tools and support necessary for success.")]

/-- FAQs probe (lines 591-599). -/
def faqsDiscoveredA (content : Json) : List Json :=
  firstArr [content.get "faqs", probe2 content "faq" "faqs",
    probe2 content "FAQ" "faqs", probe2 content "faqSection" "faqs"]
    defaultFaqsA

/-- FAQ normalization (lines 697-700). -/
def normFaqA (f : Json) : Except String FaqR :=
  if f = Json.jnull then .error "TypeError: cannot read properties of null"
  else .ok
    { question := jsTrim (jsToString (jsOr (f.get "question") (.jstr "How can we help?")))
      answer := jsTrim (jsToString (jsOr (f.get "answer") (.jstr "We're here to help you succeed."))) }

/-- The normalized content object of variant A (lines 632-715). -/
structure NormContentA where
  heroTitle : List Json
  heroDescription : String
  featuresTitle : String
  features : List FeatureR
  pricingTitle : String
  pricingDescription : String
  pricingTiers : List TierR
  testimonialsTitle : String
  testimonials : List TestimonialR
  faqTitle : String
  faqs : List FaqR
  ctaTitle : String
  ctaDescription : String
deriving DecidableEq, Repr

/-- Variant-A normalization of a parsed content document (lines 538-715).
An `.error` result models a thrown `TypeError`, which the surrounding
`catch` turns into an error log. -/
def normalizeContentA (content : Json) : Except String NormContentA := do
  if content = Json.jnull then throw "TypeError: cannot read properties of null"
  let heroTitle ← normHeroTitleA content
  let features ← promoteFeaturesA (normalizedFeaturesA (featuresDiscoveredA content))
  let tiers ← mapExcept normTierA (tiersDiscoveredA content)
  let testimonials ← mapExcept normTestimonialA (testimonialsDiscoveredA content)
  let faqs ← mapExcept normFaqA (faqsDiscoveredA content)
  pure
    { heroTitle
      heroDescription := jsToString (jsOrChain [content.get "heroDescription",
        probe2 content "hero" "heroDescription", probe2 content "Hero" "heroDescription",
        probe2 content "heroSection" "heroDescription"]
        (.jstr "Transform your business with our solution"))
      featuresTitle := jsToString (jsOrChain [content.get "featuresTitle",
        probe2 content "features" "title", probe2 content "Features" "title",
        probe2 content "featuresSection" "title"] (.jstr "Features"))
      features
      pricingTitle := jsToString (jsOrChain [content.get "pricingTitle",
        probe2 content "pricing" "title", probe2 content "Pricing" "title",
        probe2 content "pricingSection" "title"] (.jstr "Pricing"))
      pricingDescription := jsToString (jsOrChain [content.get "pricingDescription",
        probe2 content "pricing" "description", probe2 content "Pricing" "description",
        probe2 content "pricingSection" "description"]
        (.jstr "Choose the plan that's right for you"))
      pricingTiers := tiers
      testimonialsTitle := jsToString (jsOrChain [content.get "testimonialsTitle",
        probe2 content "testimonials" "title", probe2 content "Testimonials" "title",
        probe2 content "testimonialsSection" "title"] (.jstr "What Our Customers Say"))
      testimonials
      faqTitle := jsToString (jsOrChain [content.get "faqTitle",
        probe2 content "faq" "title", probe2 content "FAQ" "title",
        probe2 content "faqSection" "title"] (.jstr "Frequently Asked Questions"))
      faqs
      ctaTitle := jsToString (jsOrChain [content.get "ctaTitle",
        probe2 content "cta" "title", probe2 content "CTA" "title",
        probe2 content "ctaSection" "title"] (.jstr "Get Started Today"))
      ctaDescription := jsToString (jsOrChain [content.get "ctaDescription",
        probe2 content "cta" "description", probe2 content "CTA" "description",
        probe2 content "ctaSection" "description"]
        (.jstr "Join thousands of satisfied customers")) }

/-- The payload variant A passes to `createPageContent` (lines 719-737). -/
def pipePreviewPayloadA (idea : String) (nc : NormContentA) : PagePayload :=
  { idea
    heroTitle := nc.heroTitle
    heroDescription := nc.heroDescription
    featuresTitle := nc.featuresTitle
    features := nc.features
    pricingTitle := nc.pricingTitle
    pricingDescription := nc.pricingDescription
    pricingTiers := nc.pricingTiers
    testimonialsTitle := nc.testimonialsTitle
    testimonials := nc.testimonials.map fun t => { t with avatar := none }
    faqTitle := nc.faqTitle
    faqs := nc.faqs
    ctaTitle := nc.ctaTitle
    ctaDescription := nc.ctaDescription }

/-- The partial record variant A passes to the lib
`createDynamicLandingPage` (lines 741-763); feature icons get a
positional fallback when empty. -/
def pipeDynPartialA (nc : NormContentA) : DynPartial :=
  { id := none
    logoUrl := none
    heroTitle := some nc.heroTitle
    heroDescription := some nc.heroDescription
    featuresTitle := some nc.featuresTitle
    features := some (nc.features.enum.map fun x =>
      { x.2 with icon := if x.2.icon = "" then iconAt x.1 else x.2.icon })
    pricingTitle := some nc.pricingTitle
    pricingDescription := some nc.pricingDescription
    pricingTiers := some nc.pricingTiers
    testimonialsTitle := some nc.testimonialsTitle
    testimonials := some (nc.testimonials.map fun t => { t with avatar := none })
    faqTitle := some nc.faqTitle
    faqs := some nc.faqs
    ctaTitle := some nc.ctaTitle
    ctaDescription := some nc.ctaDescription }

/-- Outcome of the post-stream phase of variant A (lines 503-788):
parse, normalize, write to both stores; every branch ends at the
`finally` that emits `[DONE]`. -/
structure PipeOutcome where
  previewRec : Option GeneratedPageContent
  dynRec : Option DynContent
  errLog : Option String
  previewWrites : List SetCall
  dynWrites : List SetCall
  doneEmitted : Bool
deriving Repr

/-- The post-stream phase of variant A applied to the accumulated text:
`JSON.parse`, normalization, then `createPageContent` and the lib
`createDynamicLandingPage`; a parse or normalization throw is caught and
logged (`Error parsing content`), never propagated. -/
def pipelineA (idea previewId dynId : String) (acc : String)
    (σp : List (String × Json)) (σd : List (String × String)) : PipeOutcome :=
  match parseJson acc with
  | none => ⟨none, none, some "Error parsing content", [], [], true⟩
  | some content =>
    match normalizeContentA content with
    | .error e => ⟨none, none, some e, [], [], true⟩
    | .ok nc =>
      let pres := createPageContent previewId (pipePreviewPayloadA idea nc) σp
      match createDynamicLandingPageLib dynId (pipeDynPartialA nc) σd with
      | (.error e, _, _) => ⟨some pres.1, none, some e, [pres.2.2], [], true⟩
      | (.ok drec, _, dw) => ⟨some pres.1, some drec, none, [pres.2.2], dw, true⟩

/-! ## Streaming client (`src/unnamed/part_002`, `streamChatCompletion`) -/

/-- `sseFormat` (part_002 lines 8-11). -/
def sseFormat (j : Json) : String := "data: " ++ stringify j ++ "\n\n"

/-- The hardcoded fallback content substituted on a parse failure of the
accumulated text (part_002 lines 92-103). -/
def fallbackObj : Json := Json.jobj
  [("heroTitle", .jstr "AI Developer Filter"),
   ("heroDescription", .jstr "A powerful tool to help companies find the right AI developers"),
   ("ctaTitle", .jstr "Start Filtering Today"),
   ("ctaDescription", .jstr "Find the perfect AI developer for your team"),
   ("features", .jarr [.jstr "Smart candidate filtering", .jstr "AI skill assessment",
     .jstr "Experience verification", .jstr "Cultural fit analysis"])]

/-- `JSON.stringify` of the fallback object. -/
def fallbackJsonStr : String := stringify fallbackObj

/-- Result of the `[DONE]` finalization (part_002 lines 79-105):
the content-frame payload, and whether the parse-error branch (which logs
`Error parsing accumulated text`) ran. -/
structure FinalizeOut where
  content : String
  parseErrorLogged : Bool
deriving DecidableEq, Repr

/-- Finalization of the accumulated text at the upstream `[DONE]`
sentinel: validate it with `JSON.parse`; on failure, log the parse error
and substitute the fallback JSON. -/
def finalizeAccumulated (accumulatedText : String) : FinalizeOut :=
  let jsonStr := jsTrim accumulatedText
  match parseJson jsonStr with
  | some _ => ⟨jsonStr, false⟩
  | none => ⟨fallbackJsonStr, true⟩

/-- `json.choices?.[0]?...`: element access under optional chaining. -/
def optIdx (v : Option Json) (i : Nat) : Option Json :=
  match v with
  | some (Json.jarr xs) => xs.get? i
  | _ => none

/-- Delta-text extraction from one `data:` payload (part_002
lines 109-120): `json.choices?.[0]?.delta?.content || ""`, with thrown or
failed parses ignored. -/
def deltaOf (dataPart : String) : String :=
  match parseJson dataPart with
  | none => ""
  | some j =>
    match optGet (optGet (optIdx (j.get "choices") 0) "delta") "content" with
    | some v => if v.truthy then jsToString v else ""
    | none => ""

/-- Line loop of the client read loop (part_002 lines 73-121): trims each
line, handles `data:` lines, and stops at the `[DONE]` sentinel (second
component `true`). -/
def processLines (acc : String) : List String → String × Bool
  | [] => (acc, false)
  | line :: rest =>
    let l := jsTrim line
    if l = "" then processLines acc rest
    else if strStarts l "data:" then
      let dataPart := jsTrim (l.drop 5)
      if dataPart = "[DONE]" then (acc, true)
      else processLines (acc ++ deltaOf dataPart) rest
    else processLines acc rest

/-- What the mocked `reader.read()` yields in one iteration of the
client's read loop. -/
inductive ReadEvent where
  | chunk (s : String)
  | readErr (msg : String)
  | eof
deriving DecidableEq, Repr

/-- Observable state of one `streamChatCompletion` run: whether the
keep-alive `setInterval` was started and whether `clearInterval` ran,
whether the controller was closed, the accumulated text, and the emitted
frames. -/
structure ClientState where
  timerStarted : Bool
  timerCleared : Bool
  closed : Bool
  acc : String
  emitted : List String
deriving DecidableEq, Repr

/-- The read loop of `streamChatCompletion` (part_002 lines 66-127):
a chunk is split into lines and processed; the `[DONE]` sentinel emits
the finalized content frame, exits the loop, and reaches the
`clearInterval` + `close` after the loop; a rejected read jumps to the
`catch` (line 129) which closes the controller **without** clearing the
interval. -/
def clientLoop (st : ClientState) : List ReadEvent → ClientState
  | [] => st
  | e :: rest =>
    match e with
    | .readErr _ => { st with closed := true }
    | .eof => { st with timerCleared := true, closed := true }
    | .chunk s =>
      let out := processLines st.acc (s.splitOn "\n")
      if out.2 then
        let fin := finalizeAccumulated out.1
        { timerStarted := st.timerStarted
          timerCleared := true
          closed := true
          acc := out.1
          emitted := st.emitted ++ [sseFormat (.jobj [("content", .jstr fin.content)])] }
      else clientLoop { st with acc := out.1 } rest

/-- One `streamChatCompletion` run (part_002 lines 25-132): a non-OK
response closes the stream before the keep-alive interval is started;
otherwise the interval is started and the read loop runs. -/
def clientRun (respOk : Bool) (events : List ReadEvent) : ClientState :=
  if ¬respOk then ⟨false, false, true, "", []⟩
  else clientLoop ⟨true, false, false, "", []⟩ events

/-! ## Generator route gate (variant A `POST`, lines 336-346) -/

/-- A server-sent frame of the generation response. -/
inductive Frame where
  | log (msg : String)
  | result (generatedId dynamicId : String)
  | done
deriving DecidableEq, Repr

/-- Observable outcome of one `POST /api/generator` request body. -/
structure GenOutcome where
  frames : List Frame
  upstreamInvoked : Bool
  previewWrites : List SetCall
  dynWrites : List SetCall
deriving Repr

/-- The non-empty-idea continuation of variant A: the upstream client is
invoked, the accumulated text `acc` is processed by `pipelineA`, and the
response ends with the result frame (on success) and `[DONE]`.
Intermediate diagnostic log frames (whose text embeds timestamps) are
summarized by the opening log frame. -/
def mainA (idea acc previewId dynId : String)
    (σp : List (String × Json)) (σd : List (String × String)) : GenOutcome :=
  let po := pipelineA idea previewId dynId acc σp σd
  { frames := Frame.log ("Starting generation with idea: " ++ idea) ::
      (match po.dynRec with
       | some _ => [Frame.result previewId dynId, Frame.done]
       | none => [Frame.done])
    upstreamInvoked := true
    previewWrites := po.previewWrites
    dynWrites := po.dynWrites }

/-- The variant-A `POST` body (lines 336-346 then 353-788): an empty or
blank idea emits the single `No idea provided.` log frame and the
`[DONE]` sentinel and returns before the pipeline (and hence before the
upstream call and any store write); otherwise the generation pipeline
runs. -/
def generatorRunA (idea acc previewId dynId : String)
    (σp : List (String × Json)) (σd : List (String × String)) : GenOutcome :=
  if idea = "" ∨ jsTrim idea = "" then
    { frames := [.log "No idea provided.", .done]
      upstreamInvoked := false
      previewWrites := []
      dynWrites := [] }
  else mainA idea acc previewId dynId σp σd

/-! ## The part_004 `POST` normalizer (hero title only truncated) -/

/-- Hero-title probe of the part_004 variant (lines 208-211): only three
candidate locations, no `heroSection` probe. -/
def heroDiscoveredP4 (content : Json) : List Json :=
  firstArr [content.get "heroTitle", probe2 content "hero" "heroTitle",
    probe2 content "Hero" "heroTitle"] heroDefault

/-- part_004 normalized hero title (line 247): `heroTitle.slice(0, 3)` —
truncation only, with no dot-splitting and no padding step. -/
def normHeroTitleP4 (content : Json) : List Json :=
  (heroDiscoveredP4 content).take 3

/-! ## Concrete inputs used by witnesses and counterexamples -/

/-- A minimal payload that passes the part_003 create validations. -/
def c1Payload : DynPayload :=
  { logoUrl := none
    heroTitle := [.jstr "Plan", .jstr "Create", .jstr "Grow"]
    heroDescription := "A concrete description"
    featuresTitle := ""
    features := []
    pricingTitle := ""
    pricingDescription := ""
    pricingTiers := []
    testimonialsTitle := ""
    testimonials := []
    faqTitle := ""
    faqs := []
    ctaTitle := ""
    ctaDescription := "" }

/-- A parsed content document whose hero title has two entries. -/
def c2Doc : Json := Json.jobj [("heroTitle", .jarr [.jstr "A", .jstr "B"])]

/-- The spec's dot-splitting scenario document. -/
def c2SplitDoc : Json :=
  Json.jobj [("heroTitle", .jarr [.jstr "Build fast. Ship faster. Grow forever."])]

/-- A partial record that passes every `validateContent` check. -/
def c6Data : DynPartial :=
  { id := none
    logoUrl := none
    heroTitle := some [.jstr "One", .jstr "Two", .jstr "Three"]
    heroDescription := some "Hero description"
    featuresTitle := some "Features"
    features := some [⟨"F1", "C1", "⚡️"⟩, ⟨"F2", "C2", "🛠️"⟩, ⟨"F3", "C3", "🔒"⟩, ⟨"F4", "C4", "📱"⟩]
    pricingTitle := some "Pricing"
    pricingDescription := some "Pick a plan"
    pricingTiers := some [⟨"Basic", "$1", "Starter", ["a"]⟩, ⟨"Pro", "$2", "Bigger", ["b"]⟩]
    testimonialsTitle := some "Testimonials"
    testimonials := some [⟨"N1", "R1", "T1", none⟩, ⟨"N2", "R2", "T2", none⟩, ⟨"N3", "R3", "T3", none⟩]
    faqTitle := some "FAQ"
    faqs := some [⟨"Q1", "A1"⟩, ⟨"Q2", "A2"⟩, ⟨"Q3", "A3"⟩, ⟨"Q4", "A4"⟩]
    ctaTitle := some "Go"
    ctaDescription := some "Join now" }

/-! ## Helper lemmas -/

/-- The padded-and-truncated hero list of variant A always has exactly 3
entries. -/
theorem heroPad_length (l : List Json) : (heroPad l).length = 3 := by
  unfold heroPad
  by_cases h : l.length < 3
  · simp only [h, if_true, List.length_take, List.length_append, List.length_drop]
    simp only [heroDefault, List.length_cons, List.length_nil]
    omega
  · simp only [h, if_false, List.length_take]
    omega

/-- `mapExcept` succeeds with the pointwise image when every element
succeeds. -/
theorem mapExcept_ok {α β ε : Type} (f : α → Except ε β) (g : α → β) :
    ∀ l : List α, (∀ x ∈ l, f x = .ok (g x)) → mapExcept f l = .ok (l.map g) := by
  intro l
  induction l with
  | nil => intro _; rfl
  | cons a t ih =>
    intro h
    have ha := h a (List.mem_cons_self a t)
    have ht := ih fun x hx => h x (List.mem_cons_of_mem a hx)
    simp only [mapExcept, ha, ht, List.map_cons]
    rfl

/-- A `validateContent` success forces every cardinality and required
string condition checked before the per-item loops. -/
theorem validateContent_ok_conditions (b : DynPayload)
    (hok : validateContent b = .ok ()) :
    3 ≤ b.heroTitle.length ∧ 4 ≤ b.features.length ∧ 2 ≤ b.pricingTiers.length ∧
    3 ≤ b.testimonials.length ∧ 4 ≤ b.faqs.length ∧
    jsTrim b.heroDescription ≠ "" ∧ jsTrim b.featuresTitle ≠ "" ∧
    jsTrim b.pricingTitle ≠ "" ∧ jsTrim b.pricingDescription ≠ "" ∧
    jsTrim b.testimonialsTitle ≠ "" ∧ jsTrim b.faqTitle ≠ "" ∧
    jsTrim b.ctaTitle ≠ "" ∧ jsTrim b.ctaDescription ≠ "" := by
  unfold validateContent at hok
  by_cases h1 : b.heroTitle.length < 3
  · rw [if_pos h1] at hok
    exact Except.noConfusion hok
  rw [if_neg h1] at hok
  by_cases h2 : b.features.length < 4
  · rw [if_pos h2] at hok
    exact Except.noConfusion hok
  rw [if_neg h2] at hok
  by_cases h3 : b.pricingTiers.length < 2
  · rw [if_pos h3] at hok
    exact Except.noConfusion hok
  rw [if_neg h3] at hok
  by_cases h4 : b.testimonials.length < 3
  · rw [if_pos h4] at hok
    exact Except.noConfusion hok
  rw [if_neg h4] at hok
  by_cases h5 : b.faqs.length < 4
  · rw [if_pos h5] at hok
    exact Except.noConfusion hok
  rw [if_neg h5] at hok
  by_cases h6 : jsTrim b.heroDescription = ""
  · rw [if_pos h6] at hok
    exact Except.noConfusion hok
  rw [if_neg h6] at hok
  by_cases h7 : jsTrim b.featuresTitle = ""
  · rw [if_pos h7] at hok
    exact Except.noConfusion hok
  rw [if_neg h7] at hok
  by_cases h8 : jsTrim b.pricingTitle = ""
  · rw [if_pos h8] at hok
    exact Except.noConfusion hok
  rw [if_neg h8] at hok
  by_cases h9 : jsTrim b.pricingDescription = ""
  · rw [if_pos h9] at hok
    exact Except.noConfusion hok
  rw [if_neg h9] at hok
  by_cases h10 : jsTrim b.testimonialsTitle = ""
  · rw [if_pos h10] at hok
    exact Except.noConfusion hok
  rw [if_neg h10] at hok
  by_cases h11 : jsTrim b.faqTitle = ""
  · rw [if_pos h11] at hok
    exact Except.noConfusion hok
  rw [if_neg h11] at hok
  by_cases h12 : jsTrim b.ctaTitle = ""
  · rw [if_pos h12] at hok
    exact Except.noConfusion hok
  rw [if_neg h12] at hok
  by_cases h13 : jsTrim b.ctaDescription = ""
  · rw [if_pos h13] at hok
    exact Except.noConfusion hok
  rw [if_neg h13] at hok
  exact ⟨by omega, by omega, by omega, by omega, by omega,
    h6, h7, h8, h9, h10, h11, h12, h13⟩

/-! ## Claims -/

/-- Claim C4 (confirmed): for every well-formed input payload,
`createPageContent` returns the record formed of the generated identifier
and the input payload, and `getPageContent` on that identifier recovers
exactly that record (the round-trip through the store is lossless). -/
theorem c4_theorem (genId : String) (p : PagePayload) (σ : List (String × Json)) :
    (createPageContent genId p σ).1 = ⟨genId, p⟩ ∧
    getPageContent (createPageContent genId p σ).1.id
        (createPageContent genId p σ).2.1 =
      some (encPageRecord ⟨genId, p⟩) := by
  constructor
  · rfl
  · simp [getPageContent, createPageContent, List.lookup]

/-- Claim C5 (confirmed): when an identifier is absent from the preview
store and from the part_003 dynamic store, both `get` operations return
the explicit `undefined` ("not found") result; neither function can
propagate an exception (each wraps its body in a catch that returns
`undefined`). -/
theorem c5_theorem (id : String) (σp : List (String × Json)) (σd : List (String × String))
    (hp : σp.lookup (previewKeyOf id) = none) (hd : σd.lookup (dynKeyOf id) = none) :
    getPageContent id σp = none ∧ getDynP3 id σd = none := by
  constructor
  · simp [getPageContent, hp]
  · simp [getDynP3, hd]

/-- Witness for C5 at a concrete absent identifier over empty stores. -/
theorem c5_witness :
    ([] : List (String × Json)).lookup (previewKeyOf "nope") = none ∧
    ([] : List (String × String)).lookup (dynKeyOf "nope") = none ∧
    (getPageContent "nope" [] = none ∧ getDynP3 "nope" [] = none) :=
  ⟨rfl, rfl, c5_theorem "nope" [] [] rfl rfl⟩

/-- Claim C7 (confirmed): an empty or whitespace-only idea makes the
generator route emit exactly one `No idea provided.` log frame followed by
the `[DONE]` sentinel, perform no store write, and never invoke the
upstream streaming client. -/
theorem c7_theorem (idea acc previewId dynId : String)
    (σp : List (String × Json)) (σd : List (String × String))
    (h : jsTrim idea = "") :
    generatorRunA idea acc previewId dynId σp σd =
      ⟨[Frame.log "No idea provided.", Frame.done], false, [], []⟩ := by
  simp [generatorRunA, h]

/-- Witness for C7 at a whitespace-only idea. -/
theorem c7_witness :
    jsTrim "  " = "" ∧
    generatorRunA "  " "acc" "pid" "did" [] [] =
      ⟨[Frame.log "No idea provided.", Frame.done], false, [], []⟩ :=
  ⟨rfl, c7_theorem "  " "acc" "pid" "did" [] [] rfl⟩

/-- Claim C9 (code bug): when the upstream response is OK and the read
loop terminates through a rejected `reader.read()` (a transport error),
the `catch` handler closes the controller but never calls
`clearInterval`, so the keep-alive interval started at part_002 line 62
is still active after stream closure — contradicting the requirement that
the idle-marker timer be cancelled on every termination of the read loop. -/
theorem c9_theorem :
    (clientRun true [ReadEvent.readErr "socket hang up"]).timerStarted = true ∧
    (clientRun true [ReadEvent.readErr "socket hang up"]).closed = true ∧
    (clientRun true [ReadEvent.readErr "socket hang up"]).timerCleared = false :=
  ⟨rfl, rfl, rfl⟩

/-- Claim C1 (corrected, amended part): for every payload passing the
part_003 create validations and every value the verification read
returns, `createDynamicLandingPage` returns the record normally; the
byte comparison of the read-back against the serialized write payload is
only recorded in the `matches` log field and raises nothing. -/
theorem c1_theorem (genId : String) (p : DynPayload) (verRead : Option String)
    (h3 : p.heroTitle.length = 3) (hd : jsTrim p.heroDescription ≠ "") :
    ∃ r : P3Result, createDynP3 genId p verRead = .ok r ∧
      r.record = ⟨genId, p⟩ ∧
      r.writes = [⟨dynKeyOf genId, stringify (encDynContent ⟨genId, p⟩),
        some (60 * 60 * 24 * 30)⟩] ∧
      (r.matchesLog = true ↔ verRead = some (stringify (encDynContent ⟨genId, p⟩))) := by
  refine ⟨⟨⟨genId, p⟩,
    [⟨dynKeyOf genId, stringify (encDynContent ⟨genId, p⟩), some (60 * 60 * 24 * 30)⟩],
    verRead == some (stringify (encDynContent ⟨genId, p⟩)),
    if verRead == some (stringify (encDynContent ⟨genId, p⟩)) then "exact"
    else match verRead with | none => "no_data" | some _ => "content_mismatch"⟩,
    ?_, rfl, rfl, ?_⟩
  · simp [createDynP3, h3, hd]
  · simp

/-- Witness for C1's amended statement: a concrete valid payload with an
injected stale verification read still returns `.ok`. -/
theorem c1_witness :
    c1Payload.heroTitle.length = 3 ∧ jsTrim c1Payload.heroDescription ≠ "" ∧
    (∃ r : P3Result, createDynP3 "id0" c1Payload (some "stale") = .ok r ∧
      r.record = ⟨"id0", c1Payload⟩ ∧
      r.writes = [⟨dynKeyOf "id0", stringify (encDynContent ⟨"id0", c1Payload⟩),
        some (60 * 60 * 24 * 30)⟩] ∧
      (r.matchesLog = true ↔ some "stale" = some (stringify (encDynContent ⟨"id0", c1Payload⟩)))) :=
  ⟨rfl, by decide, c1_theorem "id0" c1Payload (some "stale") rfl (by decide)⟩

/-- The normalized content the variant-A normalizer produces from the
fallback object (defined by projection so that concrete facts about it
evaluate by `rfl`). -/
def ncFallback : NormContentA :=
  match normalizeContentA fallbackObj with
  | .ok nc => nc
  | .error _ =>
    { heroTitle := [], heroDescription := "", featuresTitle := "", features := [],
      pricingTitle := "", pricingDescription := "", pricingTiers := [],
      testimonialsTitle := "", testimonials := [], faqTitle := "", faqs := [],
      ctaTitle := "", ctaDescription := "" }

/-- When parse, normalization and dynamic-store validation all succeed,
the variant-A pipeline stores a record in each store, logs no error, and
emits the terminal sentinel. -/
theorem pipelineA_ok (idea pid did acc : String)
    (σp : List (String × Json)) (σd : List (String × String))
    (content : Json) (nc : NormContentA)
    (hp : parseJson acc = some content)
    (hn : normalizeContentA content = .ok nc)
    (hv : validateContent (buildDynBody (pipeDynPartialA nc)) = .ok ()) :
    (pipelineA idea pid did acc σp σd).previewRec =
      some ⟨pid, pipePreviewPayloadA idea nc⟩ ∧
    (pipelineA idea pid did acc σp σd).dynRec =
      some (buildDynContent did (pipeDynPartialA nc)) ∧
    (pipelineA idea pid did acc σp σd).errLog = none ∧
    (pipelineA idea pid did acc σp σd).doneEmitted = true := by
  refine ⟨?_, ?_, ?_, ?_⟩ <;>
    simp [pipelineA, hp, hn, createPageContent, createDynamicLandingPageLib,
      buildDynContent, hv]

/-- Claim C3 (confirmed): whenever the accumulated upstream text fails to
parse as JSON, the streaming client substitutes the hardcoded fallback
content object (fixed hero title, description and feature set) as the
content frame and logs the parse error; downstream, the variant-A
pipeline run on that fallback completes normally — it produces records in
both stores, logs no error, and ends with the `[DONE]` sentinel. -/
theorem c3_theorem (acc idea previewId dynId : String)
    (σp : List (String × Json)) (σd : List (String × String))
    (h : parseJson (jsTrim acc) = none) :
    finalizeAccumulated acc = ⟨fallbackJsonStr, true⟩ ∧
    (pipelineA idea previewId dynId fallbackJsonStr σp σd).previewRec.isSome = true ∧
    (pipelineA idea previewId dynId fallbackJsonStr σp σd).dynRec.isSome = true ∧
    (pipelineA idea previewId dynId fallbackJsonStr σp σd).errLog = none ∧
    (pipelineA idea previewId dynId fallbackJsonStr σp σd).doneEmitted = true := by
  obtain ⟨h1, h2, h3, h4⟩ := pipelineA_ok idea previewId dynId fallbackJsonStr σp σd
    fallbackObj ncFallback (by rfl) (by rfl) (by rfl)
  refine ⟨?_, ?_, ?_, h3, h4⟩
  · simp [finalizeAccumulated, h]
  · rw [h1]; rfl
  · rw [h2]; rfl

/-- Witness for C3 at a concrete non-JSON accumulated text. -/
theorem c3_witness :
    parseJson (jsTrim "this is not json") = none ∧
    (finalizeAccumulated "this is not json" = ⟨fallbackJsonStr, true⟩ ∧
      (pipelineA "an idea" "p0" "d0" fallbackJsonStr [] []).previewRec.isSome = true ∧
      (pipelineA "an idea" "p0" "d0" fallbackJsonStr [] []).dynRec.isSome = true ∧
      (pipelineA "an idea" "p0" "d0" fallbackJsonStr [] []).errLog = none ∧
      (pipelineA "an idea" "p0" "d0" fallbackJsonStr [] []).doneEmitted = true) :=
  ⟨rfl, c3_theorem "this is not json" "an idea" "p0" "d0" [] [] rfl⟩

/-- Claim C6 (corrected, amended part): the preview store's create and
the part_003 dynamic create write with a 30-day expiry (`ex` of 2592000
seconds), while the lib dynamic store's create passes no options to
`redis.set` and therefore writes with **no** expiry; no update or delete
operation exists in any store module. -/
theorem c6_theorem :
    (∀ genId p σ, ((createPageContent genId p σ).2.2).ex = some (60 * 60 * 24 * 30)) ∧
    (∀ genId data σ, validateContent (buildDynBody data) = .ok () →
      ((createDynamicLandingPageLib genId data σ).2.2).map SetCall.ex = [none]) ∧
    (∀ genId p verRead, p.heroTitle.length = 3 → jsTrim p.heroDescription ≠ "" →
      (createDynP3 genId p verRead).map (fun r => r.writes.map SetCall.ex) =
        .ok [some (60 * 60 * 24 * 30)]) := by
  refine ⟨fun _ _ _ => rfl, fun genId data σ hv => ?_, fun genId p verRead h3 hd => ?_⟩
  · simp [createDynamicLandingPageLib, buildDynContent, hv]
  · simp [createDynP3, h3, hd, Except.map]

/-- Witness for C6's amended statement at concrete valid payloads. -/
theorem c6_witness :
    validateContent (buildDynBody c6Data) = .ok () ∧
    ((createDynamicLandingPageLib "d0" c6Data []).2.2).map SetCall.ex = [none] ∧
    c1Payload.heroTitle.length = 3 ∧ jsTrim c1Payload.heroDescription ≠ "" ∧
    (createDynP3 "id0" c1Payload none).map (fun r => r.writes.map SetCall.ex) =
      .ok [some (60 * 60 * 24 * 30)] :=
  ⟨rfl, c6_theorem.2.1 "d0" c6Data [] rfl, rfl, by decide,
    c6_theorem.2.2 "id0" c1Payload none rfl (by decide)⟩

/-- Counterexample to claim C6 as stated: the lib dynamic store's create,
run on a fully valid record, performs its write with no expiry option —
not with the claimed 30-day expiry. -/
theorem c6_counterexample :
    ((createDynamicLandingPageLib "d0" c6Data []).2.2).map SetCall.ex = [none] ∧
    ((none : Option Nat) ≠ some (60 * 60 * 24 * 30)) :=
  ⟨by rfl, by decide⟩

/-- Claim C10 (confirmed): when the content assembled by the lib dynamic
create violates any minimum cardinality (heroTitle 3, features 4,
pricingTiers 2, testimonials 3, faqs 4) or has a blank required
title/description string, the create returns a thrown validation error,
and the store state is unchanged with no write performed. -/
theorem c10_theorem (genId : String) (data : DynPartial) (σ : List (String × String))
    (h : (buildDynBody data).heroTitle.length < 3 ∨
      (buildDynBody data).features.length < 4 ∨
      (buildDynBody data).pricingTiers.length < 2 ∨
      (buildDynBody data).testimonials.length < 3 ∨
      (buildDynBody data).faqs.length < 4 ∨
      jsTrim (buildDynBody data).heroDescription = "" ∨
      jsTrim (buildDynBody data).featuresTitle = "" ∨
      jsTrim (buildDynBody data).pricingTitle = "" ∨
      jsTrim (buildDynBody data).pricingDescription = "" ∨
      jsTrim (buildDynBody data).testimonialsTitle = "" ∨
      jsTrim (buildDynBody data).faqTitle = "" ∨
      jsTrim (buildDynBody data).ctaTitle = "" ∨
      jsTrim (buildDynBody data).ctaDescription = "") :
    (∃ e, (createDynamicLandingPageLib genId data σ).1 = .error e) ∧
    (createDynamicLandingPageLib genId data σ).2.1 = σ ∧
    (createDynamicLandingPageLib genId data σ).2.2 = [] := by
  cases hv : validateContent (buildDynBody data) with
  | error e =>
    refine ⟨⟨e, ?_⟩, ?_, ?_⟩ <;> simp [createDynamicLandingPageLib, buildDynContent, hv]
  | ok u =>
    cases u
    obtain ⟨k1, k2, k3, k4, k5, k6, k7, k8, k9, k10, k11, k12, k13⟩ :=
      validateContent_ok_conditions _ hv
    rcases h with h|h|h|h|h|h|h|h|h|h|h|h|h <;> first | omega | simp_all

/-- Witness for C10 at the all-defaults partial record (its hero list is
empty). -/
theorem c10_witness :
    ((buildDynBody {}).heroTitle.length < 3 ∨
      (buildDynBody {}).features.length < 4 ∨
      (buildDynBody {}).pricingTiers.length < 2 ∨
      (buildDynBody {}).testimonials.length < 3 ∨
      (buildDynBody {}).faqs.length < 4 ∨
      jsTrim (buildDynBody {}).heroDescription = "" ∨
      jsTrim (buildDynBody {}).featuresTitle = "" ∨
      jsTrim (buildDynBody {}).pricingTitle = "" ∨
      jsTrim (buildDynBody {}).pricingDescription = "" ∨
      jsTrim (buildDynBody {}).testimonialsTitle = "" ∨
      jsTrim (buildDynBody {}).faqTitle = "" ∨
      jsTrim (buildDynBody {}).ctaTitle = "" ∨
      jsTrim (buildDynBody {}).ctaDescription = "") ∧
    ((∃ e, (createDynamicLandingPageLib "g0" {} []).1 = .error e) ∧
      (createDynamicLandingPageLib "g0" {} []).2.1 = [] ∧
      (createDynamicLandingPageLib "g0" {} []).2.2 = []) :=
  ⟨Or.inl (by decide), c10_theorem "g0" {} [] (Or.inl (by decide))⟩

/-- Claim C2 (corrected, amended part): in the variant-A normalizer,
whenever hero-title normalization completes without a thrown error, the
resulting hero-title list has exactly 3 entries (dot-split, padded from
the default triple, truncated). -/
theorem c2_theorem (content : Json) (r : List Json)
    (h : normHeroTitleA content = .ok r) : r.length = 3 := by
  unfold normHeroTitleA at h
  cases hs : heroSplitStep (heroDiscoveredA content) with
  | error e => rw [hs] at h; exact Except.noConfusion h
  | ok l =>
    rw [hs] at h
    simp only [bind, Except.bind, pure, Except.pure] at h
    cases h
    exact heroPad_length l

/-- Witness for C2's amended statement at the spec's dot-splitting
scenario. -/
theorem c2_witness :
    normHeroTitleA c2SplitDoc =
      .ok [Json.jstr "Build fast", Json.jstr "Ship faster", Json.jstr "Grow forever"] ∧
    ([Json.jstr "Build fast", Json.jstr "Ship faster", Json.jstr "Grow forever"] :
      List Json).length = 3 :=
  ⟨rfl, c2_theorem c2SplitDoc _ rfl⟩

/-- Counterexample to claim C2 as stated: the part_004 normalizer only
truncates the discovered hero list (`heroTitle.slice(0, 3)`, line 247 of
part_004) and never pads it, so the two-entry discovered list is stored
as a two-entry `heroTitle` in the Content Record built at part_004
lines 282-304 — not the claimed exactly-3-entry list. -/
theorem c2_counterexample :
    normHeroTitleP4 c2Doc = [Json.jstr "A", Json.jstr "B"] ∧
    (normHeroTitleP4 c2Doc).length ≠ 3 :=
  ⟨rfl, by decide⟩

/-- `Option.map` on a present value, as a rewrite step. -/
theorem option_map_some {α β : Type} (f : α → β) (x : α) :
    Option.map f (some x) = some (f x) := rfl

/-- The successful value of a feature promotion (used to present the
image list of `mapExcept`). -/
def promotedOr (nf : List Json) (x : Json) : FeatureR :=
  match promoteFeatureA nf x with
  | .ok y => y
  | .error _ => ⟨"", "", ""⟩

/-- `Json.jstr` is injective. -/
theorem jstr_injective : Function.Injective Json.jstr := fun _ _ h => Json.jstr.inj h

/-- A string with a nonempty prefix is nonempty. -/
theorem append_ne_empty_left (a b : String) (h : a ≠ "") : a ++ b ≠ "" := by
  intro he
  apply h
  have hdata := congrArg String.data he
  simp only [String.data_append] at hdata
  cases hq : a.data with
  | nil => exact String.ext hq
  | cons c cs => rw [hq] at hdata; simp at hdata

/-- Every icon of the fixed six-icon set is nonempty. -/
theorem iconAt_ne_empty (k : Nat) : iconAt k ≠ "" := by
  unfold iconAt
  have h : k % 6 = 0 ∨ k % 6 = 1 ∨ k % 6 = 2 ∨ k % 6 = 3 ∨ k % 6 = 4 ∨ k % 6 = 5 := by
    omega
  rcases h with h|h|h|h|h|h <;> rw [h] <;> decide

/-- Promotion of a plain-string feature entry: the string becomes the
title, the content is the template, and the icon is taken from the
first-occurrence index of the string in the normalized list. -/
theorem promoteFeatureA_str (nf : List Json) (s : String) :
    promoteFeatureA nf (Json.jstr s) =
      .ok ⟨s, "Leverage the power of " ++ s ++ " to transform your business.",
        iconAt (nf.indexOf (Json.jstr s))⟩ := by
  simp [promoteFeatureA, Json.get, jsOr, jsOrChain, jsToString]

/-- Promotion of a synthesized padding entry keeps its own title,
content and position-cycled icon. -/
theorem promoteFeatureA_pad (nf : List Json) (n j : Nat) :
    promoteFeatureA nf (padFeatureA n j) =
      .ok ⟨"Additional Feature " ++ toString (j + 1),
        "This feature enhances your experience and productivity.",
        iconAt (n + j)⟩ := by
  have ht : ("Additional Feature " ++ toString (j + 1)) ≠ "" :=
    append_ne_empty_left _ _ (by decide)
  have hi : iconAt (n + j) ≠ "" := iconAt_ne_empty (n + j)
  simp [promoteFeatureA, padFeatureA, Json.get, jsOr, jsOrChain, jsToString,
    Json.truthy, List.lookup, ht, hi]

/-- Shape of the normalized feature list for a non-empty plain-string
features array: the strings followed by the synthesized padding. -/
theorem normalizedFeaturesA_eq (ss : List String) (hn : 0 < ss.length) :
    normalizedFeaturesA (ss.map Json.jstr) =
      ss.map Json.jstr ++
        (if ss.length < 6 then (List.range (6 - ss.length)).map (padFeatureA ss.length)
         else []) := by
  unfold normalizedFeaturesA
  by_cases h6 : ss.length < 6 <;> simp [List.length_map, hn, h6]

/-- For pairwise-distinct strings, the first-occurrence index of the
`i`-th string in the padded list is `i` itself. -/
theorem indexOf_map_jstr (ss : List String) (hd : ss.Nodup) (i : Nat) (hi : i < ss.length)
    (pads : List Json) :
    (ss.map Json.jstr ++ pads).indexOf (Json.jstr ss[i]) = i := by
  have h2 : i < (ss.map Json.jstr).length := by simpa using hi
  have hmap : Json.jstr ss[i] = (ss.map Json.jstr)[i] := (List.getElem_map _).symm
  rw [hmap, List.indexOf_append_of_mem (List.getElem_mem h2)]
  exact List.indexOf_getElem (hd.map jstr_injective) i h2

/-- Claim C8 (corrected, amended part): for every non-empty array of
pairwise-distinct plain strings, variant-A feature normalization promotes
the `i`-th string `s` to
`⟨s, templated sentence from s, FEATURE_ICONS[i % 6]⟩` (for distinct
strings the first-occurrence index equals the position), and pads the
list with synthesized placeholder entries carrying position-cycled icons
until it reaches 6 entries. -/
theorem c8_theorem (ss : List String) (h0 : ss ≠ []) (hd : ss.Nodup) :
    ∃ fs : List FeatureR,
      promoteFeaturesA (normalizedFeaturesA (ss.map Json.jstr)) = .ok fs ∧
      fs.length = 6 ∧
      (∀ i : Nat, i < min ss.length 6 →
        fs[i]? = some ⟨ss.getD i "",
          "Leverage the power of " ++ ss.getD i "" ++ " to transform your business.",
          iconAt i⟩) ∧
      (∀ i : Nat, ss.length ≤ i → i < 6 →
        fs[i]? = some ⟨"Additional Feature " ++ toString (i - ss.length + 1),
          "This feature enhances your experience and productivity.", iconAt i⟩) := by
  have hn : 0 < ss.length := List.length_pos.mpr h0
  have hnf := normalizedFeaturesA_eq ss hn
  have hall : ∀ x ∈ (normalizedFeaturesA (ss.map Json.jstr)).take 6,
      promoteFeatureA (normalizedFeaturesA (ss.map Json.jstr)) x =
        .ok (promotedOr (normalizedFeaturesA (ss.map Json.jstr)) x) := by
    intro x hx
    have hx2 : x ∈ normalizedFeaturesA (ss.map Json.jstr) := List.mem_of_mem_take hx
    rw [hnf] at hx2
    rcases List.mem_append.mp hx2 with hxl | hxr
    · obtain ⟨s, hs, rfl⟩ := List.mem_map.mp hxl
      simp [promotedOr, promoteFeatureA_str]
    · by_cases h6 : ss.length < 6
      · rw [if_pos h6] at hxr
        obtain ⟨j, hj, rfl⟩ := List.mem_map.mp hxr
        simp [promotedOr, promoteFeatureA_pad]
      · rw [if_neg h6] at hxr
        exact absurd hxr (List.not_mem_nil x)
  have hfs := mapExcept_ok _ _ _ hall
  refine ⟨_, hfs, ?_, ?_, ?_⟩
  · rw [List.length_map, List.length_take, hnf]
    by_cases h6 : ss.length < 6 <;>
      simp [h6, List.length_append, List.length_map, List.length_range] <;> omega
  · intro i hi
    have hi6 : i < 6 := by omega
    have hiss : i < ss.length := by omega
    have hil : i < (ss.map Json.jstr).length := by simpa using hiss
    rw [List.getElem?_map, List.getElem?_take, if_pos hi6, hnf,
      List.getElem?_append, if_pos hil, List.getElem?_map,
      List.getElem?_eq_getElem hiss, option_map_some, option_map_some]
    rw [List.getD_eq_getElem ss "" hiss]
    simp only [promotedOr, promoteFeatureA_str]
    rw [indexOf_map_jstr ss hd i hiss]
  · intro i hni hi6
    have h6 : ss.length < 6 := by omega
    have hrange : i - ss.length < 6 - ss.length := by omega
    rw [List.getElem?_map, List.getElem?_take, if_pos hi6, hnf, if_pos h6,
      List.getElem?_append]
    simp only [List.length_map]
    rw [if_neg (by omega : ¬ i < ss.length), List.getElem?_map,
      List.getElem?_range hrange, option_map_some, option_map_some]
    simp only [promotedOr, promoteFeatureA_pad]
    rw [Nat.add_sub_cancel' hni]

/-- Witness for C8's amended statement at the spec's
`["Speed","Security"]` scenario. -/
theorem c8_witness :
    (["Speed", "Security"] : List String) ≠ [] ∧
    (["Speed", "Security"] : List String).Nodup ∧
    (∃ fs : List FeatureR,
      promoteFeaturesA (normalizedFeaturesA
        ((["Speed", "Security"] : List String).map Json.jstr)) = .ok fs ∧
      fs.length = 6 ∧
      (∀ i : Nat, i < min (["Speed", "Security"] : List String).length 6 →
        fs[i]? = some ⟨(["Speed", "Security"] : List String).getD i "",
          "Leverage the power of " ++ (["Speed", "Security"] : List String).getD i "" ++
            " to transform your business.",
          iconAt i⟩) ∧
      (∀ i : Nat, (["Speed", "Security"] : List String).length ≤ i → i < 6 →
        fs[i]? = some ⟨"Additional Feature " ++
            toString (i - (["Speed", "Security"] : List String).length + 1),
          "This feature enhances your experience and productivity.", iconAt i⟩)) :=
  ⟨by decide, by decide, c8_theorem ["Speed", "Security"] (by decide) (by decide)⟩

/-- Counterexample to claim C8 as stated: with the duplicate plain-string
features `["Speed","Speed"]`, the element at position 1 receives the icon
of the first occurrence (`FEATURE_ICONS[0]`), not the round-robin icon of
its position (`FEATURE_ICONS[1]`). -/
theorem c8_counterexample :
    (promoteFeaturesA (normalizedFeaturesA [Json.jstr "Speed", Json.jstr "Speed"])).map
      (fun l => l.map FeatureR.icon) =
      .ok ["⚡️", "⚡️", "🔒", "📱", "🌐", "✨"] ∧
    FEATURE_ICONS.getD 1 "" = "🛠️" ∧ ("⚡️" : String) ≠ "🛠️" :=
  ⟨by rfl, rfl, by decide⟩

/-- Counterexample to claim C1 as stated: with a verification read that
returns bytes different from the serialized write payload, the create
operation does **not** raise a verification error — it returns normally
(`.ok`), merely logging `content_mismatch`. -/
theorem c1_counterexample :
    (some "stale" ≠ some (stringify (encDynContent ⟨"id0", c1Payload⟩))) ∧
    (createDynP3 "id0" c1Payload (some "stale")).isOk = true ∧
    (∀ r, createDynP3 "id0" c1Payload (some "stale") = .ok r →
      r.matchReason = "content_mismatch") := by
  refine ⟨by decide, by decide, ?_⟩
  intro r h
  have : r = ⟨⟨"id0", c1Payload⟩, [⟨dynKeyOf "id0",
      stringify (encDynContent ⟨"id0", c1Payload⟩), some (60 * 60 * 24 * 30)⟩],
      false, "content_mismatch"⟩ := by
    have hh : createDynP3 "id0" c1Payload (some "stale") = .ok ⟨⟨"id0", c1Payload⟩,
        [⟨dynKeyOf "id0", stringify (encDynContent ⟨"id0", c1Payload⟩),
          some (60 * 60 * 24 * 30)⟩], false, "content_mismatch"⟩ := by rfl
    rw [hh] at h
    exact (Except.ok.injEq _ _).mp h.symm
  rw [this]

end LandingSpec
